import Mathlib

/-!
A shallow embedding, in Lean 4, of the node-add core of this repository:
the `--os` flag parser and validator, the node-identity allocator, the
local PowerShell command-execution layer, and the `node add` orchestrator
(`nodeAddCmd.Run`), together with theorems checking the specification's
claims against the embedded code.
-/

namespace Spec2Proof

/-! ## Go string primitives

`goSplit` models Go's `strings.Split(s, sep)` for a one-character
separator (the source only splits on `","` and `"="`): it splits around
every instance of the separator, and `strings.Split("", sep) = [""]`.
`goJoin` models `strings.Join(elems, sep)`. -/

def goSplitChars (sep : Char) : List Char → List (List Char)
  | [] => [[]]
  | c :: cs =>
    match goSplitChars sep cs with
    | [] => [[]]
    | h :: t => if c == sep then [] :: h :: t else (c :: h) :: t

def goSplit (sep : Char) (s : String) : List String :=
  (goSplitChars sep s.data).map String.mk

def goJoin (sep : String) : List String → String
  | [] => ""
  | [x] => x
  | x :: y :: xs => x ++ sep ++ goJoin sep (y :: xs)

/-! ## OS Specification Parser/Validator (`parseOSFlag`, `validateOS`)

Embedding of `parseOSFlag` from `cmd/minikube/cmd/node_add.go`:

    parts := strings.Split(osFlagValue, ",")
    osInfo := map[string]string{"os": "linux", "version": ""}
    for _, part := range parts {
        kv := strings.Split(part, "=")
        if len(kv) != 2 {
            return "", "", errors.Errorf("Invalid format for --os flag: %s", osFlagValue)
        }
        osInfo[kv[0]] = kv[1]
    }
    if osInfo["os"] == "windows" && osInfo["version"] == "" {
        osInfo["version"] = "2022"
    }
    return osInfo["os"], osInfo["version"], nil

The map is tracked by its two live keys `os` and `version`; assignments
to any other key are stored but never read, so they do not affect the
returned pair. -/

def parsePairs : List String → String → String → Option (String × String)
  | [], os, ver => some (os, ver)
  | p :: rest, os, ver =>
    match goSplit '=' p with
    | [k, v] => parsePairs rest (if k == "os" then v else os) (if k == "version" then v else ver)
    | _ => none

def parseOSFlag (osFlagValue : String) : Except String (String × String) :=
  match parsePairs (goSplit ',' osFlagValue) "linux" "" with
  | none => .error ("Invalid format for --os flag: " ++ osFlagValue)
  | some (os, ver) =>
    .ok (os, if os == "windows" && ver == "" then "2022" else ver)

/-- Modelled from the spec: `node.ValidOS()` lives in
`pkg/minikube/node`, outside the provided sources; the spec fixes the
supported-kind set as `{linux, windows}` with the message listing the
options in that order, corroborated by `TestValidateOS`. -/
def ValidOS : List String := ["linux", "windows"]

def containsStr (x : String) : List String → Bool
  | [] => false
  | v :: vs => x == v || containsStr x vs

/-- Embedding of `validateOS` from `cmd/minikube/cmd/node_add.go`: loop
over `node.ValidOS()`, return `nil` on the first match, otherwise an
`errors.Errorf` message. `none` models a `nil` error, `some msg` a
non-nil error with message `msg`. -/
def validateOS (os : String) : Option String :=
  if containsStr os ValidOS then none
  else some ("Invalid OS: " ++ os ++ ". Valid OS are: " ++ goJoin ", " ValidOS)

/-! ## Node Identity Allocator

The id-formatting and id-extraction functions `node.Name` and `node.ID`
live in `pkg/minikube/node`, outside the provided sources; only their
call sites in `nodeAddCmd.Run` are given. They are modelled from the
spec (§4.2): a node name encodes a numeric id, `formatName` being the
inverse of the id extraction. We encode an id as the letter `m`
followed by its decimal digits. -/

/-- Decimal digits of `n`, least significant first, by fueled division
(`natDigitsRev n n` has enough fuel for every `n`). -/
def natDigitsRev : Nat → Nat → List Nat
  | 0, _ => []
  | fuel + 1, n => if n = 0 then [] else n % 10 :: natDigitsRev fuel (n / 10)

/-- Modelled from the spec: `node.Name` formats the node name encoding
id `n`. -/
def nodeName (n : Nat) : String :=
  String.mk ('m' :: ((natDigitsRev n n).reverse.map Nat.digitChar))

def charDigit? (c : Char) : Option Nat :=
  if '0' ≤ c ∧ c ≤ '9' then some (c.toNat - '0'.toNat) else none

def digitsOfChars : List Char → Option (List Nat)
  | [] => some []
  | c :: cs =>
    match charDigit? c, digitsOfChars cs with
    | some d, some ds => some (d :: ds)
    | _, _ => none

/-- Value of a list of decimal digits, least significant first. -/
def ofDecDigits : List Nat → Nat
  | [] => 0
  | d :: ds => d + 10 * ofDecDigits ds

/-- Modelled from the spec: `node.ID` extracts the numeric suffix
encoded in a node name, failing (with a Go error, here `none`) when the
name does not encode a parsable id. -/
def nodeID (s : String) : Option Nat :=
  match s.data with
  | 'm' :: rest => (digitsOfChars rest).map (fun ds => ofDecDigits ds.reverse)
  | _ => none

/-- Embedding of `config.Node` as constructed by `nodeAddCmd.Run` (the
fields the orchestrator populates). -/
structure Node where
  name : String
  worker : Bool
  controlPlane : Bool
  kubernetesVersion : String
deriving DecidableEq

/-- Embedding of the allocator lines of `nodeAddCmd.Run`:

    lastID, err := node.ID(cc.Nodes[len(cc.Nodes)-1].Name)
    if err != nil {
        lastID = len(cc.Nodes)
        out.ErrLn("determining last node index (will assume %d): %v", lastID, err)
    }
    name := node.Name(lastID + 1)

Go indexes `cc.Nodes[len(cc.Nodes)-1]`, which panics on an empty slice;
§3's invariant keeps `nodes` non-empty and the theorems below assume it
(the `none` branch of `getLast?` is unreachable under that invariant).
The returned Bool records whether the non-fatal `out.ErrLn` diagnostic
was emitted. -/
def allocateName (nodes : List Node) : String × Bool :=
  match nodes.getLast? with
  | some last =>
    match nodeID last.name with
    | some lastID => (nodeName (lastID + 1), false)
    | none => (nodeName (nodes.length + 1), true)
  | none => (nodeName (nodes.length + 1), true)

/-! ## Remote Command Execution Layer (`pkg/minikube/node/powershell.go`)

The effectful surface is an oracle `ExecEnv`: `lookPath` models
`exec.LookPath` against the process's search path, and `run` models
running a started process to completion, giving its exit code and the
bytes it wrote to standard output and standard error. Go errors are an
explicit inductive: `sentinel` for `errors.New` values, `execError` for
an `exec.Error` produced by `exec.Command`/`LookPath` when the command
could not even start (no process is spawned), `exitError` for an
`exec.ExitError` from a non-zero exit. -/

inductive GoError where
  | sentinel (msg : String)
  | execError (name : String)
  | exitError (code : Nat)
deriving DecidableEq

def ErrPowerShellNotFound : GoError := .sentinel "powershell was not found in the path"

def ErrNotAdministrator : GoError := .sentinel "hyper-v commands have to be run as an Administrator"

def ErrNotInstalled : GoError := .sentinel "hyper-V PowerShell Module is not available"

structure ExecEnv where
  lookPath : String → Option String
  run : String → List String → Nat × String × String

/-- Embedding of the package `init`: `powershell, _ = exec.LookPath("powershell.exe")`.
The error is discarded, so a failed lookup leaves the cached path `""`. -/
def powershellPath (env : ExecEnv) : String :=
  (env.lookPath "powershell.exe").getD ""

/-- One `klog.Infof` line of `cmdOut`, in emission order: the assembled
command line, then the stdout buffer, then the stderr buffer. -/
inductive LogLine where
  | executing (path : String) (args : List String)
  | stdoutLine (s : String)
  | stderrLine (s : String)
deriving DecidableEq

/-- Embedding of `cmdOut` plus its `klog` side channel:

    args = append([]string{"-NoProfile", "-NonInteractive"}, args...)
    cmd := exec.Command(powershell, args...)
    klog.Infof("[executing ==>] : %v %v", powershell, strings.Join(args, " "))
    var stdout bytes.Buffer
    var stderr bytes.Buffer
    cmd.Stdout = &stdout
    cmd.Stderr = &stderr
    err := cmd.Run()
    klog.Infof("[stdout =====>] : %s", stdout.String())
    klog.Infof("[stderr =====>] : %s", stderr.String())
    return stdout.String(), err

When the cached path is `""`, `exec.Command("")` records a `LookPath`
failure in `cmd.Err` and `cmd.Run` returns that `exec.Error` without
spawning anything, both buffers staying empty; otherwise the process
runs to completion and a non-zero exit surfaces as an `exec.ExitError`.
The first component is exactly what the Go function returns (the stdout
string and the error); the log lines are the side channel. -/
def cmdOutFull (env : ExecEnv) (args : List String) :
    (String × Option GoError) × List LogLine :=
  let args := ["-NoProfile", "-NonInteractive"] ++ args
  let path := powershellPath env
  if path = "" then
    (("", some (.execError "")), [.executing path args, .stdoutLine "", .stderrLine ""])
  else
    match env.run path args with
    | (code, out, errOut) =>
      ((out, if code = 0 then none else some (.exitError code)),
       [.executing path args, .stdoutLine out, .stderrLine errOut])

/-- The value `cmdOut` returns to its caller: the captured stdout and
the error. -/
def cmdOut (env : ExecEnv) (args : List String) : String × Option GoError :=
  (cmdOutFull env args).1

/-! ## Node Addition Orchestrator (`nodeAddCmd.Run`) -/

/-- The flags of the `add` subcommand with the defaults registered in
`init`:

    nodeAddCmd.Flags().BoolVar(&cpNode, "control-plane", false, ...)
    nodeAddCmd.Flags().BoolVar(&workerNode, "worker", true, ...)
    nodeAddCmd.Flags().BoolVar(&deleteNodeOnFailure, "delete-on-failure", false, ...)
    nodeAddCmd.Flags().StringVar(&osType, "os", "linux", osTypeLong)
-/
structure AddFlags where
  cpNode : Bool
  workerNode : Bool
  deleteNodeOnFailure : Bool
  osType : String
deriving DecidableEq

def defaultAddFlags : AddFlags :=
  { cpNode := false, workerNode := true, deleteNodeOnFailure := false, osType := "linux" }

/-- Embedding of the slice of `config.ClusterConfig` the orchestrator
touches. `isHA` stands for `config.IsHA(cc)` and `kubernetesVersion`
for `cc.KubernetesConfig.KubernetesVersion`; both live outside the
provided sources and are modelled from the spec as fields of the
configuration (§3). -/
structure ClusterConfig where
  name : String
  driver : String
  isHA : Bool
  multiNodeRequested : Bool
  cniDisabled : Bool
  memory : Nat
  kubernetesVersion : String
  nodes : List Node
deriving DecidableEq

/-- Modelled from the spec: `driver.BareMetal` is outside the provided
sources; per §4.4 it detects a driver that cannot host multiple nodes,
and the rejection message names the `none` driver. -/
def BareMetal (d : String) : Bool := d == "none"

/-- Modelled from the spec: the supported-Windows-version set consulted
by `validateWindowsOSVersion` (outside the provided sources); the spec
names Windows Server 2019 and 2022 as the supported releases. -/
def SupportedWindowsVersions : List String := ["2019", "2022"]

/-- Modelled from the spec: `validateWindowsOSVersion` checks the
version against the supported-Windows-version set and fails with an
`InvalidWindowsVersion` error otherwise (§4.1). -/
def validateWindowsOSVersion (v : String) : Option String :=
  if containsStr v SupportedWindowsVersions then none
  else some ("Invalid Windows version: " ++ v ++ ". Valid Windows versions are: "
      ++ goJoin ", " SupportedWindowsVersions)

/-- Embedding of the guard around the windows-version check in
`nodeAddCmd.Run`:

    if windowsVersion != "" {
        if err := validateWindowsOSVersion(windowsVersion); err != nil { exit }
    }
-/
def checkWindowsVersion (windowsVersion : String) : Option String :=
  if windowsVersion == "" then none else validateWindowsOSVersion windowsVersion

/-- How one `node add` invocation ends when it does not succeed:
`usage` for `exit.Message(reason.Usage, ...)`, `failureT` for
`out.FailureT(...)` (modelled from the spec, which treats both as
rejections that abort the workflow, §4.4), `guestNodeAdd` and
`hostSaveProfile` for the two `exit.Error` calls. -/
inductive AddErr where
  | usage (msg : String)
  | failureT (msg : String)
  | guestNodeAdd (msg : String)
  | hostSaveProfile (msg : String)
deriving DecidableEq

def windowsControlPlaneMsg : String := "Windows node cannot be used as control-plane nodes."

def bareMetalMsg : String := "none driver does not support multi-node clusters"

def nonHAMsg : String :=
  "Adding a control-plane node to a non-HA (non-multi-control plane) cluster is not currently supported. Please first delete the cluster and use 'minikube start --ha' to create new one."

/-- The `config.Node` literal built by `nodeAddCmd.Run`. -/
def mkNode (f : AddFlags) (cc : ClusterConfig) (name : String) : Node :=
  { name := name
    worker := f.workerNode
    controlPlane := f.cpNode
    kubernetesVersion := cc.kubernetesVersion }

/-- The external collaborators `nodeAddCmd.Run` delegates to (§6):
`node.Add`, `maybeDeleteAndRetry` and `config.SaveProfile` are outside
the provided sources and are taken as oracle functions; an `ok` result
carries the cluster configuration they may have mutated through the
shared pointer. -/
structure Delegates where
  nodeAdd : ClusterConfig → Node → Bool → Except String ClusterConfig
  maybeDeleteAndRetry : ClusterConfig → Node → String → Except String ClusterConfig
  saveProfile : String → ClusterConfig → Option String

/-- The tail of `nodeAddCmd.Run` after all precondition checks passed:
delegate to `node.Add`, on failure to `maybeDeleteAndRetry` (fatal as
`reason.GuestNodeAdd` if that also fails), then persist the profile
(fatal as `reason.HostSaveProfile` on error). -/
def delegatePhase (d : Delegates) (cc1 : ClusterConfig) (n : Node)
    (deleteOnFailure : Bool) : Option AddErr × ClusterConfig :=
  match d.nodeAdd cc1 n deleteOnFailure with
  | .error e =>
    match d.maybeDeleteAndRetry cc1 n e with
    | .error _ => (some (.guestNodeAdd "failed to add node"), cc1)
    | .ok _ =>
      match d.saveProfile cc1.name cc1 with
      | some _ => (some (.hostSaveProfile "failed to save config"), cc1)
      | none => (none, cc1)
  | .ok cc2 =>
    match d.saveProfile cc2.name cc2 with
    | some _ => (some (.hostSaveProfile "failed to save config"), cc2)
    | none => (none, cc2)

/-- Embedding of the body of `nodeAddCmd.Run`, threading the working
copy of the cluster configuration. The result pairs how the run ended
(`none` for success) with the configuration as it stands at that point;
an early rejection returns the configuration it was given.
`memoryFlagSet` models `viper.GetString(memory) != ""` (the operator
explicitly set a memory override). Pure observability calls
(`out.Step`, `warnAboutMultiNodeCNI`, `register.Reg.SetStep`,
`out.ErrLn` — the latter tracked by `allocateName`'s Bool) change no
state and are not represented. -/
def runNodeAdd (d : Delegates) (f : AddFlags) (memoryFlagSet : Bool)
    (cc : ClusterConfig) : Option AddErr × ClusterConfig :=
  match parseOSFlag f.osType with
  | .error e => (some (.usage e), cc)
  | .ok (osType, windowsVersion) =>
    match validateOS osType with
    | some e => (some (.usage e), cc)
    | none =>
      match checkWindowsVersion windowsVersion with
      | some e => (some (.usage e), cc)
      | none =>
        if osType == "windows" && f.cpNode then
          (some (.usage windowsControlPlaneMsg), cc)
        else if BareMetal cc.driver then
          (some (.failureT bareMetalMsg), cc)
        else if f.cpNode && !cc.isHA then
          (some (.failureT nonHAMsg), cc)
        else
          let name := (allocateName cc.nodes).1
          let n := mkNode f cc name
          let cc1 :=
            if cc.nodes.length = 1 && !memoryFlagSet then
              { cc with memory := 2200 }
            else cc
          delegatePhase d cc1 n f.deleteNodeOnFailure

/-- Concrete environments and inputs used by the closed theorems below. -/
def sampleCluster : ClusterConfig :=
  { name := "minikube"
    driver := "docker"
    isHA := false
    multiNodeRequested := false
    cniDisabled := false
    memory := 4000
    kubernetesVersion := "v1.31.0"
    nodes := [{ name := "m1", worker := true, controlPlane := true,
                kubernetesVersion := "v1.31.0" }] }

/-- Delegates that always succeed, for exercising the orchestrator on
concrete inputs. -/
def idleDelegates : Delegates :=
  { nodeAdd := fun cc n _ => .ok { cc with nodes := cc.nodes ++ [n] }
    maybeDeleteAndRetry := fun cc _ _ => .ok cc
    saveProfile := fun _ _ => none }

/-! ## Sanity checks of the embedding on concrete inputs -/

example : goSplit ',' "" = [""] := by decide
example : goSplit ',' "os=windows,version=2022" = ["os=windows", "version=2022"] := by decide
example : parseOSFlag "os=windows,version=2022" = .ok ("windows", "2022") := rfl
example : parseOSFlag "os=windows" = .ok ("windows", "2022") := rfl
example : parseOSFlag "linux" = .error "Invalid format for --os flag: linux" := rfl
example : validateOS "foo" = some "Invalid OS: foo. Valid OS are: linux, windows" := by decide

/-! ## Helper lemmas -/

theorem string_append_assoc (a b c : String) : a ++ b ++ c = a ++ (b ++ c) := by
  apply String.ext
  simp [String.data_append, List.append_assoc]

theorem ofDecDigits_natDigitsRev :
    ∀ (fuel n : Nat), n ≤ fuel → ofDecDigits (natDigitsRev fuel n) = n
  | 0, n, h => by
    interval_cases n
    rfl
  | fuel + 1, n, h => by
    by_cases h0 : n = 0
    · subst h0
      simp [natDigitsRev, ofDecDigits]
    · have hdiv : n / 10 ≤ fuel := by
        have := Nat.div_lt_self (Nat.pos_of_ne_zero h0) (by norm_num : 1 < 10)
        omega
      simp only [natDigitsRev, if_neg h0, ofDecDigits]
      rw [ofDecDigits_natDigitsRev fuel (n / 10) hdiv]
      omega

theorem natDigitsRev_lt :
    ∀ (fuel n d : Nat), d ∈ natDigitsRev fuel n → d < 10
  | 0, _, _, h => by simp [natDigitsRev] at h
  | fuel + 1, n, d, h => by
    by_cases h0 : n = 0
    · subst h0
      simp [natDigitsRev] at h
    · simp only [natDigitsRev, if_neg h0, List.mem_cons] at h
      rcases h with h | h
      · subst h
        exact Nat.mod_lt _ (by norm_num)
      · exact natDigitsRev_lt fuel (n / 10) d h

theorem charDigit?_digitChar (d : Nat) (h : d < 10) :
    charDigit? (Nat.digitChar d) = some d := by
  interval_cases d <;> decide

theorem digitsOfChars_map_digitChar :
    ∀ l : List Nat, (∀ d ∈ l, d < 10) →
      digitsOfChars (l.map Nat.digitChar) = some l
  | [], _ => rfl
  | d :: ds, h => by
    have hd : d < 10 := h d (List.mem_cons_self d ds)
    have hds := digitsOfChars_map_digitChar ds (fun x hx => h x (List.mem_cons_of_mem d hx))
    simp only [List.map_cons, digitsOfChars, charDigit?_digitChar d hd, hds]

theorem nodeID_nodeName (n : Nat) : nodeID (nodeName n) = some n := by
  have h1 : nodeID (nodeName n)
      = (digitsOfChars ((natDigitsRev n n).reverse.map Nat.digitChar)).map
          (fun ds => ofDecDigits ds.reverse) := rfl
  rw [h1,
    digitsOfChars_map_digitChar _ (fun d hd => natDigitsRev_lt n n d (List.mem_reverse.mp hd))]
  simp [List.reverse_reverse, ofDecDigits_natDigitsRev n n le_rfl]

theorem parsePairs_eq_none_iff :
    ∀ (l : List String) (os ver : String),
      parsePairs l os ver = none ↔ ¬ ∀ p ∈ l, (goSplit '=' p).length = 2
  | [], os, ver => by simp [parsePairs]
  | p :: rest, os, ver => by
    rcases hkv : goSplit '=' p with _ | ⟨k, _ | ⟨v, _ | ⟨x, xs⟩⟩⟩
    · simp only [parsePairs, hkv]
      simp only [List.forall_mem_cons, hkv]
      simp
    · simp only [parsePairs, hkv]
      simp only [List.forall_mem_cons, hkv]
      simp
    · simp only [parsePairs, hkv]
      rw [parsePairs_eq_none_iff rest]
      simp only [List.forall_mem_cons, hkv]
      simp
    · simp only [parsePairs, hkv]
      simp only [List.forall_mem_cons, hkv]
      simp

theorem delegatePhase_not_rejection (d : Delegates) (cc1 : ClusterConfig) (n : Node)
    (b : Bool) (msg : String) :
    (delegatePhase d cc1 n b).1 ≠ some (.usage msg) ∧
    (delegatePhase d cc1 n b).1 ≠ some (.failureT msg) := by
  unfold delegatePhase
  repeat' split
  all_goals simp

/-! ## Claim C1 — `cmdOut` and the two captured buffers -/

def envStderrA : ExecEnv :=
  { lookPath := fun _ => some "/bin/powershell.exe", run := fun _ _ => (1, "out", "errA") }

def envStderrB : ExecEnv :=
  { lookPath := fun _ => some "/bin/powershell.exe", run := fun _ _ => (1, "out", "errB") }

/-- Claim C1 is false on the code: `cmdOut` returns only the captured
stdout together with the error. Two commands that exit 1 with the same
stdout but different stderr produce identical return values, so the
returned value cannot carry the stderr buffer; the stderr buffer is
captured and appears only in the `klog` side channel, where the two
runs do differ. -/
theorem cmdOut_drops_stderr :
    cmdOut envStderrA ["Get-VM"] = cmdOut envStderrB ["Get-VM"] ∧
    cmdOut envStderrA ["Get-VM"] = ("out", some (.exitError 1)) ∧
    (cmdOutFull envStderrA ["Get-VM"]).2 ≠ (cmdOutFull envStderrB ["Get-VM"]).2 :=
  ⟨rfl, rfl, by decide⟩

/-- Claim C1 (amended): `cmdOut` captures stdout and stderr into
independent buffers and logs both; whatever the (non-zero) exit status,
it still returns the captured stdout alongside the `exec.ExitError` —
but the stderr buffer is only logged, never part of the return value. -/
theorem cmdOut_nonzero_exit_returns_stdout
    (env : ExecEnv) (args : List String) (code : Nat) (out errOut : String)
    (hpath : powershellPath env ≠ "")
    (hrun : env.run (powershellPath env) (["-NoProfile", "-NonInteractive"] ++ args)
      = (code, out, errOut))
    (hcode : code ≠ 0) :
    cmdOut env args = (out, some (.exitError code)) ∧
    (cmdOutFull env args).2 =
      [.executing (powershellPath env) (["-NoProfile", "-NonInteractive"] ++ args),
       .stdoutLine out, .stderrLine errOut] := by
  unfold cmdOut cmdOutFull
  simp only [if_neg hpath, hrun, if_neg hcode]
  exact ⟨trivial, trivial⟩

/-- Witness for C1's amended theorem at a concrete environment. -/
theorem cmdOut_nonzero_exit_returns_stdout_witness :
    cmdOut envStderrA ["Get-VM"] = ("out", some (.exitError 1)) ∧
    (cmdOutFull envStderrA ["Get-VM"]).2 =
      [.executing "/bin/powershell.exe" ["-NoProfile", "-NonInteractive", "Get-VM"],
       .stdoutLine "out", .stderrLine "errA"] :=
  cmdOut_nonzero_exit_returns_stdout envStderrA ["Get-VM"] 1 "out" "errA"
    (by decide) rfl (by decide)

/-! ## Claim C2 — behaviour when `powershell.exe` is missing -/

def envNoPS : ExecEnv :=
  { lookPath := fun _ => none, run := fun _ _ => (0, "", "") }

/-- Claim C2 is false on the code: with `powershell.exe` absent from the
search path, `cmdOut` does fail on every call, but with the generic
`exec.Error` produced by `exec.Command("")` — not with the declared
sentinel `ErrPowerShellNotFound`, which `cmdOut` never returns (`init`
discards the `LookPath` error and `cmdOut` never tests the cached
path). -/
theorem cmdOut_missing_interpreter_not_sentinel :
    (cmdOut envNoPS ["Get-VM"]).2 = some (.execError "") ∧
    some (GoError.execError "") ≠ some ErrPowerShellNotFound :=
  ⟨rfl, by decide⟩

/-- Claim C2 (amended): when the interpreter lookup at process start
fails, every subsequent `cmdOut` call fails immediately without
spawning a process — the result does not depend on the `run` oracle at
all — but the error is the generic start failure of
`exec.Command("")`, not `ErrPowerShellNotFound`. -/
theorem cmdOut_missing_interpreter_generic
    (lp : String → Option String) (run : String → List String → Nat × String × String)
    (args : List String)
    (h : lp "powershell.exe" = none) :
    cmdOut ⟨lp, run⟩ args = ("", some (.execError "")) := by
  simp [cmdOut, cmdOutFull, powershellPath, h]

/-- Witness for C2's amended theorem at a concrete environment. -/
theorem cmdOut_missing_interpreter_generic_witness :
    cmdOut ⟨fun _ => none, fun _ _ => (0, "", "")⟩ ["Get-VM"]
      = ("", some (.execError "")) :=
  cmdOut_missing_interpreter_generic _ _ _ rfl

/-! ## Claim C3 — when `parseOSFlag` reports a malformed spec -/

/-- Claim C3 is false on the code in both directions: `"os="` splits on
the first `=` into `"os"` and an empty token, so the claim predicts
`MalformedSpec`, yet parsing succeeds (empty tokens are accepted); and
`"version=a=b"` splits on the first `=` into two non-empty tokens, so
the claim predicts success, yet parsing fails (`strings.Split` splits
on every `=`, giving three tokens). -/
theorem parseOSFlag_split_counterexample :
    parseOSFlag "os=" = .ok ("", "") ∧
    parseOSFlag "version=a=b" = .error "Invalid format for --os flag: version=a=b" :=
  ⟨rfl, rfl⟩

/-- Claim C3 (amended): `parseOSFlag` fails with the `MalformedSpec`
error reporting the offending raw string exactly when some
comma-separated pair does not contain exactly one `=` (splitting the
pair on every `=` must yield exactly two tokens, which may be empty);
when every pair contains exactly one `=`, parsing succeeds. -/
theorem parseOSFlag_error_iff_malformed_pair (s : String) :
    (parseOSFlag s = .error ("Invalid format for --os flag: " ++ s) ↔
      ¬ ∀ p ∈ goSplit ',' s, (goSplit '=' p).length = 2) ∧
    ((∃ r, parseOSFlag s = .ok r) ↔
      ∀ p ∈ goSplit ',' s, (goSplit '=' p).length = 2) := by
  have h := parsePairs_eq_none_iff (goSplit ',' s) "linux" ""
  constructor
  · constructor
    · intro he
      rcases hp : parsePairs (goSplit ',' s) "linux" "" with _ | ⟨os, ver⟩
      · exact h.mp hp
      · exfalso
        unfold parseOSFlag at he
        rw [hp] at he
        exact Except.noConfusion he
    · intro hm
      unfold parseOSFlag
      rw [h.mpr hm]
  · constructor
    · intro hr
      rcases hp : parsePairs (goSplit ',' s) "linux" "" with _ | ⟨os, ver⟩
      · rcases hr with ⟨r, hr⟩
        unfold parseOSFlag at hr
        rw [hp] at hr
        exact absurd hr (fun h' => Except.noConfusion h')
      · by_contra hm
        rw [h.mpr hm] at hp
        exact Option.noConfusion hp
    · intro hm
      rcases hp : parsePairs (goSplit ',' s) "linux" "" with _ | ⟨os, ver⟩
      · exact absurd hm (h.mp hp)
      · refine ⟨(os, if os == "windows" && ver == "" then "2022" else ver), ?_⟩
        unfold parseOSFlag
        rw [hp]

/-- Witness for C3's amended theorem at concrete inputs: `"linux"`
(the flag's registered default!) has a pair with no `=` and is
rejected, while `"os=windows,version=2022"` parses. -/
theorem parseOSFlag_error_iff_malformed_pair_witness :
    parseOSFlag "linux" = .error ("Invalid format for --os flag: " ++ "linux") ∧
    ∃ r, parseOSFlag "os=windows,version=2022" = .ok r :=
  ⟨(parseOSFlag_error_iff_malformed_pair "linux").1.mpr (by decide),
   (parseOSFlag_error_iff_malformed_pair "os=windows,version=2022").2.mpr (by decide)⟩

/-! ## Claim C4 — `parseOSFlag ""` -/

/-- Claim C4 is false on the code: the empty string is a single empty
pair, `strings.Split("", "=")` yields one token, not two, and parsing
fails — it does not return the defaults `(linux, "")`. -/
theorem parseOSFlag_empty_counterexample :
    parseOSFlag "" = .error "Invalid format for --os flag: " ∧
    (Except.error "Invalid format for --os flag: " : Except String (String × String))
      ≠ .ok ("linux", "") :=
  ⟨rfl, fun h => Except.noConfusion h⟩

/-- Claim C4 (amended): `parseOSFlag` applied to the empty string is
explicitly rejected with the `MalformedSpec` error referencing the
(empty) raw string, rather than succeeding with the defaults. -/
theorem parseOSFlag_empty_rejected :
    parseOSFlag "" = .error "Invalid format for --os flag: " := rfl

/-! ## Claim C5 — when the Windows-version check applies -/

/-- Claim C5 is false on the code: the check is gated on the parsed
version being non-empty, not on the parsed kind being windows. The spec
`os=linux,version=1999` parses to kind `linux`, yet the add workflow
fails with the `InvalidWindowsVersion` error for `1999`. -/
theorem runNodeAdd_linux_version_check_fires :
    parseOSFlag "os=linux,version=1999" = .ok ("linux", "1999") ∧
    (runNodeAdd idleDelegates
        { cpNode := false, workerNode := true, deleteNodeOnFailure := false,
          osType := "os=linux,version=1999" } false sampleCluster).1
      = some (.usage "Invalid Windows version: 1999. Valid Windows versions are: 2019, 2022") :=
  ⟨rfl, rfl⟩

/-- Claim C5 (amended): `validateWindowsOSVersion` is applied exactly
when the parsed version string is non-empty, regardless of the parsed
OS kind; any spec (windows or not) carrying an explicit unsupported
version makes the add workflow fail with the `InvalidWindowsVersion`
error. Only a spec whose parsed version is empty skips the check. -/
theorem runNodeAdd_version_check_gated_on_version
    (d : Delegates) (f : AddFlags) (m : Bool) (cc : ClusterConfig)
    (os ver e : String)
    (hp : parseOSFlag f.osType = .ok (os, ver))
    (hos : validateOS os = none)
    (hne : ver ≠ "")
    (hv : validateWindowsOSVersion ver = some e) :
    (runNodeAdd d f m cc).1 = some (.usage e) := by
  have hg : checkWindowsVersion ver = some e := by
    simp [checkWindowsVersion, hne, hv]
  unfold runNodeAdd
  rw [hp]
  dsimp only
  rw [hos, hg]

set_option maxRecDepth 10000 in
/-- Witness for C5's amended theorem at a concrete non-windows input. -/
theorem runNodeAdd_version_check_gated_on_version_witness :
    (runNodeAdd idleDelegates
        { cpNode := false, workerNode := true, deleteNodeOnFailure := false,
          osType := "os=linux,version=1999" } false sampleCluster).1
      = some (.usage ("Invalid Windows version: " ++ "1999"
          ++ ". Valid Windows versions are: " ++ goJoin ", " SupportedWindowsVersions)) :=
  runNodeAdd_version_check_gated_on_version idleDelegates
    { cpNode := false, workerNode := true, deleteNodeOnFailure := false,
      osType := "os=linux,version=1999" } false sampleCluster
    "linux" "1999" _ rfl rfl (by decide) rfl

/-! ## Claim C6 — precondition rejections mutate nothing -/

/-- Claim C6: when `nodeAddCmd.Run` rejects the request on a
precondition — control plane requested for a windows node, or control
plane requested on a non-HA cluster — it does so before any state
mutation: the cluster configuration it returns is exactly the one it
was given. -/
theorem runNodeAdd_rejection_preserves_config
    (d : Delegates) (f : AddFlags) (m : Bool) (cc : ClusterConfig)
    (h : (runNodeAdd d f m cc).1 = some (.usage windowsControlPlaneMsg) ∨
         (runNodeAdd d f m cc).1 = some (.failureT nonHAMsg)) :
    (runNodeAdd d f m cc).2 = cc := by
  revert h
  unfold runNodeAdd
  repeat' split
  all_goals intro h
  all_goals try rfl
  all_goals rcases h with h | h
  all_goals first
    | exact absurd h (delegatePhase_not_rejection _ _ _ _ _).1
    | exact absurd h (delegatePhase_not_rejection _ _ _ _ _).2

set_option maxRecDepth 10000 in
/-- Witness for C6 at concrete inputs: a windows control-plane request
and a control-plane request against a non-HA cluster, both rejected
with the cluster configuration unchanged. -/
theorem runNodeAdd_rejection_preserves_config_witness :
    (runNodeAdd idleDelegates
        { cpNode := true, workerNode := true, deleteNodeOnFailure := false,
          osType := "os=windows" } false sampleCluster).2 = sampleCluster ∧
    (runNodeAdd idleDelegates
        { cpNode := true, workerNode := true, deleteNodeOnFailure := false,
          osType := "os=linux" } false sampleCluster).2 = sampleCluster :=
  ⟨runNodeAdd_rejection_preserves_config idleDelegates
      { cpNode := true, workerNode := true, deleteNodeOnFailure := false,
        osType := "os=windows" } false sampleCluster (Or.inl (by decide)),
   runNodeAdd_rejection_preserves_config idleDelegates
      { cpNode := true, workerNode := true, deleteNodeOnFailure := false,
        osType := "os=linux" } false sampleCluster (Or.inr (by decide))⟩

/-! ## Claim C7 — `validateOS` and its exact error message -/

/-- Claim C7: `validateOS` accepts exactly `"linux"` and `"windows"`,
and for every other input `s` produces the error message
`"Invalid OS: " ++ s ++ ". Valid OS are: linux, windows"`, the valid
options joined in that fixed order. -/
theorem validateOS_valid_and_message :
    validateOS "linux" = none ∧ validateOS "windows" = none ∧
    ∀ s : String, s ≠ "linux" → s ≠ "windows" →
      validateOS s = some ("Invalid OS: " ++ s ++ ". Valid OS are: linux, windows") := by
  refine ⟨by decide, by decide, ?_⟩
  intro s h1 h2
  have hc : containsStr s ValidOS = false := by
    simp [containsStr, ValidOS, h1, h2]
  unfold validateOS
  rw [hc]
  simp only [Bool.false_eq_true, if_false]
  rw [string_append_assoc]
  rfl

/-- Witness for C7 at the test's concrete input `"foo"`. -/
theorem validateOS_valid_and_message_witness :
    validateOS "foo" = some "Invalid OS: foo. Valid OS are: linux, windows" :=
  validateOS_valid_and_message.2.2 "foo" (by decide) (by decide)

/-! ## Claim C8 — the allocator and its non-fatal fallback -/

/-- Claim C8: for every non-empty node list the allocator reads the id
encoded in the last node's name and returns the name encoding id + 1
with no diagnostic; when that name encodes no parsable id it falls back
to the list's length as the id, emits the non-fatal diagnostic, and
still returns the name encoding (length) + 1 — allocation always
proceeds. -/
theorem allocateName_spec (nodes : List Node) (h : nodes ≠ []) :
    (∀ k, nodeID (nodes.getLast h).name = some k →
        allocateName nodes = (nodeName (k + 1), false) ∧
        nodeID (allocateName nodes).1 = some (k + 1)) ∧
    (nodeID (nodes.getLast h).name = none →
        allocateName nodes = (nodeName (nodes.length + 1), true) ∧
        nodeID (allocateName nodes).1 = some (nodes.length + 1)) := by
  have hg : nodes.getLast? = some (nodes.getLast h) := List.getLast?_eq_getLast nodes h
  constructor
  · intro k hk
    have ha : allocateName nodes = (nodeName (k + 1), false) := by
      simp only [allocateName, hg, hk]
    exact ⟨ha, by rw [ha]; exact nodeID_nodeName (k + 1)⟩
  · intro hk
    have ha : allocateName nodes = (nodeName (nodes.length + 1), true) := by
      simp only [allocateName, hg, hk]
    exact ⟨ha, by rw [ha]; exact nodeID_nodeName (nodes.length + 1)⟩

/-- Witness for C8 at concrete inputs: a last node named `"m2"` (id 2)
yields `"m3"` with no diagnostic; a last node named `"zzz"` (no
parsable id) falls back to the length 1, yields `"m2"`, and flags the
diagnostic. -/
theorem allocateName_spec_witness :
    allocateName [Node.mk "m2" true false "v"] = (nodeName 3, false) ∧
    allocateName [Node.mk "zzz" true false "v"] = (nodeName 2, true) :=
  ⟨((allocateName_spec [Node.mk "m2" true false "v"] (by simp)).1 2 rfl).1,
   ((allocateName_spec [Node.mk "zzz" true false "v"] (by simp)).2 rfl).1⟩

/-! ## Claim C9 — the name/id round-trip law -/

/-- Claim C9: the node-name formatting function inverts the
id-extraction function — `node.ID (node.Name n) = n` for every
`n ≥ 0` — so successive allocations yield collision-free names. -/
theorem nodeName_nodeID_roundtrip : ∀ n : Nat, nodeID (nodeName n) = some n :=
  fun n => nodeID_nodeName n

/-! ## Claim C10 — role flags and the constructed node -/

/-- Claim C10: with the role flags at their registered defaults the
constructed node descriptor is a worker-only node (`worker = true`,
`controlPlane = false`); a node with neither role can only arise when
the operator explicitly passes `--worker=false`. -/
theorem mkNode_default_roles :
    (∀ cc name, (mkNode defaultAddFlags cc name).worker = true ∧
        (mkNode defaultAddFlags cc name).controlPlane = false) ∧
    (∀ f cc name, (mkNode f cc name).worker = false →
        (mkNode f cc name).controlPlane = false → f.workerNode = false) :=
  ⟨fun _ _ => ⟨rfl, rfl⟩, fun _ _ _ hw _ => hw⟩

/-- Witness for C10 at concrete inputs. -/
theorem mkNode_default_roles_witness :
    (mkNode defaultAddFlags sampleCluster "m2").worker = true ∧
    ({ cpNode := false, workerNode := false, deleteNodeOnFailure := false,
        osType := "linux" } : AddFlags).workerNode = false :=
  ⟨(mkNode_default_roles.1 sampleCluster "m2").1,
   mkNode_default_roles.2
     { cpNode := false, workerNode := false, deleteNodeOnFailure := false, osType := "linux" }
     sampleCluster "m2" rfl rfl⟩

end Spec2Proof
